import Mathlib

/-!
# Database handle and IDP user link projection

A shallow embedding of `internal/database/database.go` (the dialect-selecting
config decode hook, `Connect`, and the transaction-wrapped read path of `DB`)
and of the reducers exercised by
`internal/query/projection/idp_user_link_test.go`.

Conventions of the embedding:

* A function of the package returning `(*T, error)` returns a pair
  `Option T × Option Error`; `nil` is `none`.
* Calls into `database/sql` and into a dialect are answered by the fields of
  `SqlDB`, `Connector` and `Matcher`. Where the package checks `err != nil`
  and then uses the value, the answer is an `Except Error T` (the callee hands
  back a usable value exactly when it hands back no error); where the package
  passes the answer on unread, it is the pair.
* A function that performs such calls returns, next to its value, the calls
  it made in program order.
* A run that ends in a Go runtime panic is `Run.aborted`.
* A `*sql.Rows` or `*sql.Row` is a pointer to a live cursor; a returned cursor
  is given in the state the caller finds it in when the call returns.
-/

namespace Zitadel

/-! ## Values and errors -/

/-- A Go `interface{}` value as far as this development inspects it: a query
argument, a column value, or a raw configuration fragment. -/
inductive Value where
  | null
  | str (s : String)
  | uint (n : Nat)
  | bool (b : Bool)
  | time (t : Nat)
  deriving DecidableEq, Repr

/-- Modelled from the spec: the error classes of `internal/errors` (§7); the
package is imported by `database.go`; its source is not among the files
embedded here. -/
inductive ErrorKind where
  | preconditionFailed
  | invalidArgument
  | internal
  deriving DecidableEq, Repr

/-- Modelled from the spec: a Go `error` value. `plain` is an error that does
not come from `internal/errors` (a driver or I/O error); `caos` is an error of
`internal/errors` with its class, wrapped parent, id and message;
`caosRoot` is such an error created with a `nil` parent. -/
inductive Error where
  | plain (msg : String)
  | caos (kind : ErrorKind) (parent : Error) (id : String) (message : String)
  | caosRoot (kind : ErrorKind) (id : String) (message : String)
  deriving DecidableEq, Repr

namespace Error

/-- The class of an error, `none` for an error foreign to `internal/errors`. -/
def kind : Error → Option ErrorKind
  | plain _ => none
  | caos k _ _ _ => some k
  | caosRoot k _ _ => some k

/-- The directly wrapped error, if any. -/
def parent : Error → Option Error
  | caos _ p _ _ => some p
  | _ => none

/-- The id of an `internal/errors` error. -/
def id : Error → Option String
  | plain _ => none
  | caos _ _ i _ => some i
  | caosRoot _ i _ => some i

/-- The message of an error. -/
def message : Error → String
  | plain m => m
  | caos _ _ _ m => m
  | caosRoot _ _ m => m

/-- Go: `errors.IsPreconditionFailed(err)`. -/
def IsPreconditionFailed (e : Error) : Bool :=
  e.kind == some ErrorKind.preconditionFailed

/-- Go: `_, ok := err.(errors.InvalidArgument)`. -/
def IsInvalidArgument (e : Error) : Bool :=
  e.kind == some ErrorKind.invalidArgument

end Error

/-- Modelled from the spec: `errors.ThrowPreconditionFailed(parent, id, message)`
builds an error of the precondition-failed class around `parent`. -/
def ThrowPreconditionFailed (parent : Error) (id message : String) : Error :=
  Error.caos ErrorKind.preconditionFailed parent id message

/-- Modelled from the spec: `errors.ThrowInvalidArgument(nil, id, message)`
builds an error of the invalid-argument class without a parent. -/
def ThrowInvalidArgument (id message : String) : Error :=
  Error.caosRoot ErrorKind.invalidArgument id message

/-- A Go runtime panic that ends a run. -/
inductive Panic where
  | nilDereference
  | makesliceCapOutOfRange
  deriving DecidableEq, Repr

/-- The way a call ends: it returns a value or the goroutine panics. -/
inductive Run (α : Type) where
  | returned (a : α)
  | aborted (p : Panic)
  deriving Repr

/-! ## `database/sql` as seen by the handle -/

/-- A `context.Context`. -/
inductive Context where
  | background
  | request (id : Nat)
  deriving DecidableEq, Repr

/-- Go: `sql.TxOptions`. -/
structure TxOptions where
  Isolation : Nat := 0
  ReadOnly : Bool := false
  deriving DecidableEq, Repr

/-- A `*sql.Tx`, named by the number the pool gave it. -/
structure Tx where
  id : Nat
  deriving DecidableEq, Repr

/-- A `*sql.Rows`: a live cursor, in the state its reader finds it in. `rows`
are the rows `Next` and `Scan` still deliver, `err` is what `Err` reports. -/
structure Rows where
  rows : List (List Value)
  err : Option Error
  deriving DecidableEq, Repr

/-- A `*sql.Row`: the cursor of a single-row query, in the state its reader
finds it in. `err` is what `Scan` reports, `values` what it delivers. -/
structure Row where
  err : Option Error
  values : List Value
  deriving DecidableEq, Repr

/-- The error a cursor reports once the context of its transaction is
cancelled (`context.Canceled`). -/
def contextCanceled : Error := Error.plain "context canceled"

/-- What `database/sql` does to an open cursor of a transaction when `Commit`
runs on that transaction: the transaction is over and the cursor is closed, so
it delivers no further row and reports `context canceled`, unless it already
reported an error of its own. `answer` is what `Commit` returned: the context
of the transaction is cancelled before the driver is asked to commit, so the
cursor is closed whether the commit succeeds or fails. -/
def Rows.afterCommit (answer : Option Error) (r : Rows) : Rows :=
  match answer with
  | none => { rows := [], err := some (r.err.getD contextCanceled) }
  | some _ => { rows := [], err := some (r.err.getD contextCanceled) }

/-- What `Commit` on its transaction does to the cursor behind a `*sql.Row`:
a row whose query already failed keeps that error; otherwise the cursor is
closed and `Scan` reports `context canceled`, whatever `Commit` answers. -/
def Row.afterCommit (answer : Option Error) (r : Row) : Row :=
  match r.err, answer with
  | some _, _ => r
  | none, none => { err := some contextCanceled, values := [] }
  | none, some _ => { err := some contextCanceled, values := [] }

/-- `time.Duration`, in nanoseconds. -/
abbrev Duration := Int

/-- Go: `time.Millisecond`. -/
def Millisecond : Duration := 1000000

/-- One call that leaves the package: into `database/sql` or `time`. -/
inductive Call where
  | BeginTx (ctx : Context) (opts : TxOptions)
  | DBQueryContext (ctx : Context) (query : String) (args : List Value)
  | DBQueryRowContext (ctx : Context) (query : String) (args : List Value)
  | TxQuery (tx : Tx) (query : String) (args : List Value)
  | TxQueryRowContext (tx : Tx) (ctx : Context) (query : String) (args : List Value)
  | TxCommit (tx : Tx)
  | TxRollback (tx : Tx)
  | Sleep (d : Duration)
  deriving DecidableEq, Repr

/-- What the calling goroutine does before it returns, in program order: a
call it makes itself, or the start of a goroutine with the calls of its body. -/
inductive Effect where
  | call (c : Call)
  | go (body : List Call)
  deriving DecidableEq, Repr

/-- The answers of a `*sql.DB` and of the transactions it hands out. -/
structure SqlDB where
  Ping : Option Error
  BeginTx : Context → TxOptions → Except Error Tx
  QueryRowContext : Context → String → List Value → Row
  TxQuery : Tx → String → List Value → Option Rows × Option Error
  TxQueryRowContext : Tx → Context → String → List Value → Row
  TxCommit : Tx → Option Error

/-- Go: `dialect.Connector` (with the embedded `dialect.Database`); `TypeName`
is its method `Type`. -/
structure Connector where
  Connect : Bool → Except Error SqlDB
  DatabaseName : String
  Username : String
  Password : String
  TypeName : String

/-- Go: `dialect.Matcher`. -/
structure Matcher where
  MatchName : String → Bool
  Decode : List Value → Except Error Connector

/-- Go: `dialect.Dialect`, as far as `DecodeHook` uses it. -/
structure Dialect where
  Matcher : Matcher

/-! ## `database.go` -/

/-- Go: `type Config struct`. `Dialects` lists the entries of the map in the
order a `range` visits them; a `nil` map is the empty list. -/
structure Config where
  Dialects : List (String × Value) := []
  connector : Option Connector := none

/-- Go: `type DB struct`; `sqlDB` is the embedded `*sql.DB`. -/
structure DB where
  sqlDB : SqlDB
  Database : Connector
  queryCommitDelay : Duration

/-- A returned value together with what the call did before returning. -/
structure Outcome (α : Type) where
  ret : α
  trace : List Effect

/-- Go: `func (db *DB) SetQueryCommitDelay(d time.Duration)`. -/
def DB.SetQueryCommitDelay (db : DB) (d : Duration) : DB :=
  { db with queryCommitDelay := d }

/-- The deferred function of `QueryContext` and `QueryRowContext`: commit at
once when the delay is zero, otherwise start a goroutine that sleeps for the
delay and then commits. The result of `Commit` is discarded (`_ = tx.Commit()`).
The handle is not modified while the call runs, so the goroutine reads the
delay the deferred function tested. -/
def DB.deferredCommit (db : DB) (tx : Tx) : List Effect :=
  if db.queryCommitDelay = 0 then
    [Effect.call (Call.TxCommit tx)]
  else
    [Effect.go [Call.Sleep db.queryCommitDelay, Call.TxCommit tx]]

/-- The state in which the deferred function leaves the `*sql.Rows` that
`tx.Query` answered, at the moment the call returns: with a zero delay
`tx.Commit()` has run on the transaction of the cursor; with a non-zero delay
the calling goroutine has committed nothing. -/
def DB.deferredRows (db : DB) (tx : Tx) (rows : Rows) : Rows :=
  if db.queryCommitDelay = 0 then
    rows.afterCommit (db.sqlDB.TxCommit tx)
  else
    rows

/-- The state in which the deferred function leaves the `*sql.Row` that
`tx.QueryRowContext` answered, at the moment the call returns. -/
def DB.deferredRow (db : DB) (tx : Tx) (row : Row) : Row :=
  if db.queryCommitDelay = 0 then
    row.afterCommit (db.sqlDB.TxCommit tx)
  else
    row

/-- Go: `func (db *DB) QueryContext(ctx, query, args...) (*sql.Rows, error)`.
The operand of `return` is evaluated first, then the deferred function runs,
then the caller receives the pointer and the error. -/
def DB.QueryContext (db : DB) (ctx : Context) (query : String) (args : List Value) :
    Outcome (Option Rows × Option Error) :=
  let opts : TxOptions := { ReadOnly := true }
  match db.sqlDB.BeginTx ctx opts with
  | Except.error err => ⟨(none, some err), [Effect.call (Call.BeginTx ctx opts)]⟩
  | Except.ok tx =>
    let answer := db.sqlDB.TxQuery tx query args
    ⟨(answer.1.map (db.deferredRows tx), answer.2),
      [Effect.call (Call.BeginTx ctx opts), Effect.call (Call.TxQuery tx query args)]
        ++ db.deferredCommit tx⟩

/-- Go: `func (db *DB) Query(query, args...) (*sql.Rows, error)`. -/
def DB.Query (db : DB) (query : String) (args : List Value) :
    Outcome (Option Rows × Option Error) :=
  db.QueryContext Context.background query args

/-- Go: `func (db *DB) QueryRowContext(ctx, query, args...) *sql.Row`. When
`BeginTx` fails the statement is sent to the pool itself, because a
`*sql.Row` has to be returned. -/
def DB.QueryRowContext (db : DB) (ctx : Context) (query : String) (args : List Value) :
    Outcome Row :=
  let opts : TxOptions := { ReadOnly := true }
  match db.sqlDB.BeginTx ctx opts with
  | Except.error _ =>
    ⟨db.sqlDB.QueryRowContext ctx query args,
      [Effect.call (Call.BeginTx ctx opts), Effect.call (Call.DBQueryRowContext ctx query args)]⟩
  | Except.ok tx =>
    ⟨db.deferredRow tx (db.sqlDB.TxQueryRowContext tx ctx query args),
      [Effect.call (Call.BeginTx ctx opts),
        Effect.call (Call.TxQueryRowContext tx ctx query args)]
        ++ db.deferredCommit tx⟩

/-- Go: `func (db *DB) QueryRow(query, args...) *sql.Row`. -/
def DB.QueryRow (db : DB) (query : String) (args : List Value) : Outcome Row :=
  db.QueryRowContext Context.background query args

/-- Go: `func Connect(config Config, useAdmin bool) (*DB, error)`. Calling a
method of the `nil` connector of a zero `Config` panics. -/
def Connect (config : Config) (useAdmin : Bool) : Run (Option DB × Option Error) :=
  match config.connector with
  | none => Run.aborted Panic.nilDereference
  | some connector =>
    match connector.Connect useAdmin with
    | Except.error err => Run.returned (none, some err)
    | Except.ok client =>
      match client.Ping with
      | some err =>
        Run.returned
          (none, some (ThrowPreconditionFailed err "DATAB-0pIWD" "Errors.Database.Connection.Failed"))
      | none =>
        Run.returned
          (some { sqlDB := client, Database := connector, queryCommitDelay := 10 * Millisecond }, none)

/-- Modelled from the spec: `dialect.SelectByConfig` over the registered
dialects (§4.1): the registered dialect whose `MatchName` recognises a key
present in the map; `nil` when no registered dialect matches. The function
lives in the `dialect` package, whose source is not among the files embedded
here; the process-wide registry is the explicit argument `registered`. -/
def SelectByConfig (registered : List Dialect) (config : List (String × Value)) :
    Option Dialect :=
  registered.find? (fun d => config.any (fun entry => d.Matcher.MatchName entry.1))

/-- The `reflect.Type` of the value `DecodeHook` decodes into. -/
inductive TargetType where
  | config
  | other (name : String)
  deriving DecidableEq, Repr

/-- The value `from.Interface()` of `DecodeHook`: a `map[string]interface{}`,
with its entries in the order a `range` visits them, or anything else. -/
inductive Source where
  | dialects (m : List (String × Value))
  | other (v : Value)
  deriving DecidableEq, Repr

/-- The `interface{}` that `DecodeHook` returns: the source untouched or a
`Config`. -/
inductive Decoded where
  | unchanged (src : Source)
  | config (c : Config)

/-- One invocation of a dialect's `Decode`. -/
structure DecodeCall where
  dialect : Dialect
  configs : List Value

/-- How `DecodeHook` ends and the `Decode` invocations it made. -/
structure HookOutcome where
  result : Run (Option Decoded × Option Error)
  decodes : List DecodeCall

/-- The loop of `DecodeHook`: `for name, dialectConfig := range
configuredDialects`, appending to `configs` the value of each key that the
matcher accepts. -/
def collectConfigs (matcher : Matcher) : List (String × Value) → List Value → List Value
  | [], configs => configs
  | (name, dialectConfig) :: rest, configs =>
    if !matcher.MatchName name then
      collectConfigs matcher rest configs
    else
      collectConfigs matcher rest (configs ++ [dialectConfig])

/-- Go: `func DecodeHook(from, to reflect.Value) (interface{}, error)`; `src`
is `from.Interface()` and `target` is `to.Type()`.
`make([]interface{}, 0, len(configuredDialects)-1)` panics when the capacity is
negative; `configuredDialect.Matcher` panics when `SelectByConfig` returned
`nil`. -/
def DecodeHook (registered : List Dialect) (src : Source) (target : TargetType) : HookOutcome :=
  match target with
  | TargetType.other _ => ⟨Run.returned (some (Decoded.unchanged src), none), []⟩
  | TargetType.config =>
    match src with
    | Source.other v => ⟨Run.returned (some (Decoded.unchanged (Source.other v)), none), []⟩
    | Source.dialects configuredDialects =>
      let configuredDialect := SelectByConfig registered configuredDialects
      if (configuredDialects.length : Int) - 1 < 0 then
        ⟨Run.aborted Panic.makesliceCapOutOfRange, []⟩
      else
        match configuredDialect with
        | none => ⟨Run.aborted Panic.nilDereference, []⟩
        | some d =>
          let configs := collectConfigs d.Matcher configuredDialects []
          match d.Matcher.Decode configs with
          | Except.error err => ⟨Run.returned (none, some err), [⟨d, configs⟩]⟩
          | Except.ok connector =>
            ⟨Run.returned (some (Decoded.config { connector := some connector }), none),
              [⟨d, configs⟩]⟩

/-- Go: `func (c Config) DatabaseName() string`. -/
def Config.DatabaseName (c : Config) : Run String :=
  match c.connector with
  | none => Run.aborted Panic.nilDereference
  | some connector => Run.returned connector.DatabaseName

/-- Go: `func (c Config) Username() string`. -/
def Config.Username (c : Config) : Run String :=
  match c.connector with
  | none => Run.aborted Panic.nilDereference
  | some connector => Run.returned connector.Username

/-- Go: `func (c Config) Password() string`. -/
def Config.Password (c : Config) : Run String :=
  match c.connector with
  | none => Run.aborted Panic.nilDereference
  | some connector => Run.returned connector.Password

/-- Go: `func (c Config) Type() string`. -/
def Config.TypeName (c : Config) : Run String :=
  match c.connector with
  | none => Run.aborted Panic.nilDereference
  | some connector => Run.returned connector.TypeName

/-- Go: `func (c *Config) SetConnector(connector dialect.Connector)`. -/
def Config.SetConnector (c : Config) (connector : Connector) : Config :=
  { c with connector := some connector }

/-! ## Reading a trace -/

/-- The calls the calling goroutine itself makes before it returns. -/
def ownCalls : List Effect → List Call
  | [] => []
  | Effect.call c :: rest => c :: ownCalls rest
  | Effect.go _ :: rest => ownCalls rest

/-- The calls made by the goroutines started before the call returns. -/
def spawnedCalls : List Effect → List Call
  | [] => []
  | Effect.call _ :: rest => spawnedCalls rest
  | Effect.go body :: rest => body ++ spawnedCalls rest

/-- Whether a call executes a statement on the pool itself, outside any
transaction. -/
def Call.onPool : Call → Bool
  | Call.DBQueryContext _ _ _ => true
  | Call.DBQueryRowContext _ _ _ => true
  | _ => false

/-- Whether a call executes a statement inside the transaction `tx`. -/
def Call.inTx (tx : Tx) : Call → Bool
  | Call.TxQuery t _ _ => t == tx
  | Call.TxQueryRowContext t _ _ _ => t == tx
  | _ => false

/-- Whether a call executes a statement at all. -/
def Call.isStatement : Call → Bool
  | Call.DBQueryContext _ _ _ => true
  | Call.DBQueryRowContext _ _ _ => true
  | Call.TxQuery _ _ _ => true
  | Call.TxQueryRowContext _ _ _ _ => true
  | _ => false

/-- Whether a call is a rollback. -/
def Call.isRollback : Call → Bool
  | Call.TxRollback _ => true
  | _ => false

/-! ## The IDP user link projection

`idp_user_link_test.go` fixes, for each reduce function, the event it accepts
and the statement it produces; the reduce functions themselves
(`idp_user_link.go`), the event types and the statement builders are not
among the files embedded here. -/

/-- Modelled from the spec: the fields every event supplies (§3, §6), as read
through `eventstore.Event`. -/
structure BaseEvent where
  AggregateType : String
  AggregateID : String
  EventType : String
  InstanceID : String
  ResourceOwner : String
  Sequence : Nat
  PreviousSequence : Nat
  CreationDate : Nat
  deriving DecidableEq, Repr

/-- Modelled from the spec: an `eventstore.Event` as the tagged union of the
concrete event types the test maps events to (§9), each with its decoded
payload; `base` is the generic `baseEvent` of the test. -/
inductive Event where
  | base (e : BaseEvent)
  | UserIDPLinkAdded (e : BaseEvent) (IDPConfigID ExternalUserID DisplayName : String)
  | UserIDPLinkRemoved (e : BaseEvent) (IDPConfigID ExternalUserID : String)
  | UserIDPLinkCascadeRemoved (e : BaseEvent) (IDPConfigID ExternalUserID : String)
  | OrgRemoved (e : BaseEvent)
  | UserRemoved (e : BaseEvent)
  | OrgIDPConfigRemoved (e : BaseEvent) (ConfigID : String)
  | InstanceIDPConfigRemoved (e : BaseEvent) (ConfigID : String)
  deriving DecidableEq, Repr

/-- Modelled from the spec: the concrete event types. -/
inductive EventKind where
  | base
  | UserIDPLinkAdded
  | UserIDPLinkRemoved
  | UserIDPLinkCascadeRemoved
  | OrgRemoved
  | UserRemoved
  | OrgIDPConfigRemoved
  | InstanceIDPConfigRemoved
  deriving DecidableEq, Repr

/-- Modelled from the spec: the concrete type of an event. -/
def Event.kind : Event → EventKind
  | Event.base _ => EventKind.base
  | Event.UserIDPLinkAdded _ _ _ _ => EventKind.UserIDPLinkAdded
  | Event.UserIDPLinkRemoved _ _ _ => EventKind.UserIDPLinkRemoved
  | Event.UserIDPLinkCascadeRemoved _ _ _ => EventKind.UserIDPLinkCascadeRemoved
  | Event.OrgRemoved _ => EventKind.OrgRemoved
  | Event.UserRemoved _ => EventKind.UserRemoved
  | Event.OrgIDPConfigRemoved _ _ => EventKind.OrgIDPConfigRemoved
  | Event.InstanceIDPConfigRemoved _ _ => EventKind.InstanceIDPConfigRemoved

/-- Modelled from the spec: the common fields of an event. -/
def Event.toBase : Event → BaseEvent
  | Event.base e => e
  | Event.UserIDPLinkAdded e _ _ _ => e
  | Event.UserIDPLinkRemoved e _ _ => e
  | Event.UserIDPLinkCascadeRemoved e _ _ => e
  | Event.OrgRemoved e => e
  | Event.UserRemoved e => e
  | Event.OrgIDPConfigRemoved e _ => e
  | Event.InstanceIDPConfigRemoved e _ => e

/-- Modelled from the spec: a column with its value, and likewise an equality
predicate of a WHERE clause (§3). -/
structure Column where
  Name : String
  Value : Value
  deriving DecidableEq, Repr

/-- Modelled from the spec: the operation of a statement (§3): insert, update
or delete. -/
inductive Operation where
  | create (values : List Column)
  | update (values : List Column) (conditions : List Column)
  | delete (conditions : List Column)
  deriving DecidableEq, Repr

/-- Modelled from the spec: `handler.Statement` as the test observes it
(`wantReduce`): aggregate type, sequences, the projection table and the
executions it performs. -/
structure Statement where
  AggregateType : String
  Sequence : Nat
  PreviousSequence : Nat
  InstanceID : String
  projection : String
  executions : List Operation
  deriving DecidableEq, Repr

/-- Modelled from the spec: `IDPUserLinkTable`, the one table of the projection
(§4.3), spelled as in the expected statements of the test. -/
def IDPUserLinkTable : String := "projections.idp_user_links3"

/-- Modelled from the spec: column `idp_id` of the link table, as the test spells it. -/
def IDPUserLinkIDPIDCol : String := "idp_id"
/-- Modelled from the spec: column `user_id` of the link table, as the test spells it. -/
def IDPUserLinkUserIDCol : String := "user_id"
/-- Modelled from the spec: column `external_user_id` of the link table, as the test spells it. -/
def IDPUserLinkExternalUserIDCol : String := "external_user_id"
/-- Modelled from the spec: column `creation_date` of the link table, as the test spells it. -/
def IDPUserLinkCreationDateCol : String := "creation_date"
/-- Modelled from the spec: column `change_date` of the link table, as the test spells it. -/
def IDPUserLinkChangeDateCol : String := "change_date"
/-- Modelled from the spec: column `sequence` of the link table, as the test spells it. -/
def IDPUserLinkSequenceCol : String := "sequence"
/-- Modelled from the spec: column `resource_owner` of the link table, as the test spells it. -/
def IDPUserLinkResourceOwnerCol : String := "resource_owner"
/-- Modelled from the spec: column `instance_id` of the link table, as the test spells it. -/
def IDPUserLinkInstanceIDCol : String := "instance_id"
/-- Modelled from the spec: column `display_name` of the link table, as the test spells it. -/
def IDPUserLinkDisplayNameCol : String := "display_name"
/-- Modelled from the spec: column `owner_removed` of the link table, as the test spells it. -/
def IDPUserLinkOwnerRemovedCol : String := "owner_removed"

/-- Modelled from the spec: a statement for the link table that carries the
event's aggregate type, sequence and previous sequence (§4.3) and performs
one operation. -/
def newStatement (e : BaseEvent) (op : Operation) : Statement :=
  { AggregateType := e.AggregateType
    Sequence := e.Sequence
    PreviousSequence := e.PreviousSequence
    InstanceID := e.InstanceID
    projection := IDPUserLinkTable
    executions := [op] }

/-- Modelled from the spec: the error of the mismatched-event guard (§4.3,
§7); the spec fixes its class only, id and message are left empty. -/
def wrongEventType : Option Statement × Option Error :=
  (none, some (ThrowInvalidArgument "" ""))

/-- Modelled from the spec: `reduceAdded` (§4.3 insert, §8 insert scenario);
the values are those the test expects, both timestamps being the event's. -/
def reduceAdded : Event → Option Statement × Option Error
  | Event.UserIDPLinkAdded e idpConfigID externalUserID displayName =>
    (some (newStatement e (Operation.create
      [ ⟨IDPUserLinkIDPIDCol, Value.str idpConfigID⟩,
        ⟨IDPUserLinkUserIDCol, Value.str e.AggregateID⟩,
        ⟨IDPUserLinkExternalUserIDCol, Value.str externalUserID⟩,
        ⟨IDPUserLinkCreationDateCol, Value.time e.CreationDate⟩,
        ⟨IDPUserLinkChangeDateCol, Value.time e.CreationDate⟩,
        ⟨IDPUserLinkSequenceCol, Value.uint e.Sequence⟩,
        ⟨IDPUserLinkResourceOwnerCol, Value.str e.ResourceOwner⟩,
        ⟨IDPUserLinkInstanceIDCol, Value.str e.InstanceID⟩,
        ⟨IDPUserLinkDisplayNameCol, Value.str displayName⟩ ])), none)
  | _ => wrongEventType

/-- Modelled from the spec: `reduceRemoved` (§4.3 targeted delete). -/
def reduceRemoved : Event → Option Statement × Option Error
  | Event.UserIDPLinkRemoved e idpConfigID externalUserID =>
    (some (newStatement e (Operation.delete
      [ ⟨IDPUserLinkIDPIDCol, Value.str idpConfigID⟩,
        ⟨IDPUserLinkUserIDCol, Value.str e.AggregateID⟩,
        ⟨IDPUserLinkExternalUserIDCol, Value.str externalUserID⟩ ])), none)
  | _ => wrongEventType

/-- Modelled from the spec: `reduceCascadeRemoved` (§4.3 targeted delete). -/
def reduceCascadeRemoved : Event → Option Statement × Option Error
  | Event.UserIDPLinkCascadeRemoved e idpConfigID externalUserID =>
    (some (newStatement e (Operation.delete
      [ ⟨IDPUserLinkIDPIDCol, Value.str idpConfigID⟩,
        ⟨IDPUserLinkUserIDCol, Value.str e.AggregateID⟩,
        ⟨IDPUserLinkExternalUserIDCol, Value.str externalUserID⟩ ])), none)
  | _ => wrongEventType

/-- Modelled from the spec: `reduceOwnerRemoved` (§4.3 soft-delete marker);
the resource owner compared is the removed organisation, the event's
aggregate id, as the test expects. -/
def reduceOwnerRemoved : Event → Option Statement × Option Error
  | Event.OrgRemoved e =>
    (some (newStatement e (Operation.update
      [ ⟨IDPUserLinkOwnerRemovedCol, Value.bool true⟩ ]
      [ ⟨IDPUserLinkInstanceIDCol, Value.str e.InstanceID⟩,
        ⟨IDPUserLinkResourceOwnerCol, Value.str e.AggregateID⟩ ])), none)
  | _ => wrongEventType

/-- Modelled from the spec: `reduceUserRemoved` (§4.3 broad delete). -/
def reduceUserRemoved : Event → Option Statement × Option Error
  | Event.UserRemoved e =>
    (some (newStatement e (Operation.delete
      [ ⟨IDPUserLinkUserIDCol, Value.str e.AggregateID⟩ ])), none)
  | _ => wrongEventType

/-- Modelled from the spec: `reduceIDPConfigRemoved` (§4.3 scoped delete),
for the organisation-level and the instance-level event alike. -/
def reduceIDPConfigRemoved : Event → Option Statement × Option Error
  | Event.OrgIDPConfigRemoved e configID =>
    (some (newStatement e (Operation.delete
      [ ⟨IDPUserLinkIDPIDCol, Value.str configID⟩,
        ⟨IDPUserLinkResourceOwnerCol, Value.str e.ResourceOwner⟩ ])), none)
  | Event.InstanceIDPConfigRemoved e configID =>
    (some (newStatement e (Operation.delete
      [ ⟨IDPUserLinkIDPIDCol, Value.str configID⟩,
        ⟨IDPUserLinkResourceOwnerCol, Value.str e.ResourceOwner⟩ ])), none)
  | _ => wrongEventType

/-- Modelled from the spec: the reduce functions of the projection, the rows
of the test table. -/
inductive Reducer where
  | reduceAdded
  | reduceRemoved
  | reduceCascadeRemoved
  | reduceOwnerRemoved
  | reduceUserRemoved
  | reduceIDPConfigRemoved
  deriving DecidableEq, Repr

/-- Modelled from the spec: the function a reducer names. -/
def Reducer.reduce : Reducer → Event → Option Statement × Option Error
  | Reducer.reduceAdded => Zitadel.reduceAdded
  | Reducer.reduceRemoved => Zitadel.reduceRemoved
  | Reducer.reduceCascadeRemoved => Zitadel.reduceCascadeRemoved
  | Reducer.reduceOwnerRemoved => Zitadel.reduceOwnerRemoved
  | Reducer.reduceUserRemoved => Zitadel.reduceUserRemoved
  | Reducer.reduceIDPConfigRemoved => Zitadel.reduceIDPConfigRemoved

/-- Modelled from the spec: the concrete event types each reduce function
expects (§4.3), those it is paired with in the test table. -/
def Reducer.expected : Reducer → List EventKind
  | Reducer.reduceAdded => [EventKind.UserIDPLinkAdded]
  | Reducer.reduceRemoved => [EventKind.UserIDPLinkRemoved]
  | Reducer.reduceCascadeRemoved => [EventKind.UserIDPLinkCascadeRemoved]
  | Reducer.reduceOwnerRemoved => [EventKind.OrgRemoved]
  | Reducer.reduceUserRemoved => [EventKind.UserRemoved]
  | Reducer.reduceIDPConfigRemoved =>
    [EventKind.OrgIDPConfigRemoved, EventKind.InstanceIDPConfigRemoved]

/-- Modelled from the spec: the positional placeholder `$n` of the generated
SQL (§6). -/
def placeholder (n : Nat) : String := "$" ++ toString n

/-- Modelled from the spec: the text `(c1 = $k) AND (c2 = $k+1) ...` of a
WHERE clause (a conjunction of equality predicates, §3) over the
columns `names` whose first placeholder is `$first`. -/
def renderConditions (first : Nat) (names : List String) : String :=
  " AND ".intercalate
    (names.enum.map (fun ic => "(" ++ ic.2 ++ " = " ++ placeholder (first + ic.1) ++ ")"))

/-- Modelled from the spec: the text `c1 = $1, c2 = $2 ...` of a SET clause
over the columns `names`. -/
def renderAssignments (names : List String) : String :=
  ", ".intercalate (names.enum.map (fun ic => ic.2 ++ " = " ++ placeholder (1 + ic.1)))

/-- Modelled from the spec: the text `$1, $2 ...` of `n` placeholders. -/
def renderPlaceholders (n : Nat) : String :=
  ", ".intercalate ((List.range n).map (fun i => placeholder (1 + i)))

/-- Modelled from the spec: the SQL text and positional arguments of an
operation on `table` (§4.4), in the shape of the statements the test expects. -/
def Operation.render (table : String) : Operation → String × List Value
  | Operation.create values =>
    ("INSERT INTO " ++ table ++ " (" ++ ", ".intercalate (values.map (·.Name)) ++ ") VALUES ("
        ++ renderPlaceholders (values.map (·.Name)).length ++ ")",
      values.map (·.Value))
  | Operation.update values conditions =>
    ("UPDATE " ++ table ++ " SET " ++ renderAssignments (values.map (·.Name))
        ++ " WHERE " ++ renderConditions (1 + (values.map (·.Name)).length)
          (conditions.map (·.Name)),
      values.map (·.Value) ++ conditions.map (·.Value))
  | Operation.delete conditions =>
    ("DELETE FROM " ++ table ++ " WHERE " ++ renderConditions 1 (conditions.map (·.Name)),
      conditions.map (·.Value))

/-- Modelled from the spec: the event of the test (§8); `testEvent` gives sequence 15, previous sequence
10, aggregate id `agg-id`, resource owner `ro-id` and instance `instance-id`
(the values the expected statements show); the creation date is not observed
by the test. -/
def testEvent (eventType aggregateType : String) : BaseEvent :=
  { AggregateType := aggregateType
    AggregateID := "agg-id"
    EventType := eventType
    InstanceID := "instance-id"
    ResourceOwner := "ro-id"
    Sequence := 15
    PreviousSequence := 10
    CreationDate := 0 }

/-! ## Concrete inputs -/

/-- The read-only options both read paths pass to `BeginTx`. -/
def readOnly : TxOptions := { ReadOnly := true }

/-- All calls of a trace: those of the calling goroutine, then those of the
goroutines it started. -/
def allCalls (trace : List Effect) : List Call :=
  ownCalls trace ++ spawnedCalls trace

/-- Whether a call is a commit. -/
def Call.isCommit : Call → Bool
  | Call.TxCommit _ => true
  | _ => false

/-- Whether a call opens a transaction. -/
def Call.isBeginTx : Call → Bool
  | Call.BeginTx _ _ => true
  | _ => false

/-- The handle with the answer of `Commit` replaced. -/
def DB.withCommit (db : DB) (commit : Tx → Option Error) : DB :=
  { db with sqlDB := { db.sqlDB with TxCommit := commit } }

/-- A pool with fixed answers: `ping` to `Ping`, `begin` to `BeginTx`, one
row of the text `pool` or `tx` to a statement, `commit` to `Commit`. -/
def fixedPool (ping : Option Error) (begin : Except Error Tx) (commit : Option Error) : SqlDB :=
  { Ping := ping
    BeginTx := fun _ _ => begin
    QueryRowContext := fun _ _ _ => ⟨none, [Value.str "pool"]⟩
    TxQuery := fun _ _ _ => (some ⟨[[Value.str "tx"]], none⟩, none)
    TxQueryRowContext := fun _ _ _ _ => ⟨none, [Value.str "tx"]⟩
    TxCommit := fun _ => commit }

/-- A connector with a fixed answer to `Connect`. -/
def fixedConnector (answer : Except Error SqlDB) : Connector :=
  { Connect := fun _ => answer
    DatabaseName := "zitadel"
    Username := "zitadel"
    Password := ""
    TypeName := "postgres" }

/-- A driver error. -/
def connectionRefused : Error := Error.plain "connection refused"

/-- A handle over a fixed pool. -/
def fixedDB (begin : Except Error Tx) (commit : Option Error) (delay : Duration) : DB :=
  { sqlDB := fixedPool none begin commit
    Database := fixedConnector (Except.ok (fixedPool none begin commit))
    queryCommitDelay := delay }

/-- A matcher in the manner of the postgres dialect: it accepts the keys
`postgres` and `pg` and refuses to decode an empty collection. -/
def postgresMatcher : Matcher :=
  { MatchName := fun name => name == "postgres" || name == "pg"
    Decode := fun configs =>
      if configs.isEmpty then Except.error (Error.plain "no config")
      else Except.ok (fixedConnector (Except.error connectionRefused)) }

/-- A matcher in the manner of the cockroach dialect. -/
def cockroachMatcher : Matcher :=
  { MatchName := fun name => name == "cockroach" || name == "crdb"
    Decode := fun _ => Except.ok (fixedConnector (Except.error connectionRefused)) }

/-- A registry of two dialects. -/
def twoDialects : List Dialect := [⟨cockroachMatcher⟩, ⟨postgresMatcher⟩]

/-- A configuration map with two fragments for postgres and one foreign key. -/
def postgresConfig : List (String × Value) :=
  [("postgres", Value.str "host=a"), ("log", Value.str "debug"), ("pg", Value.str "host=b")]

/-! ## Connect -/

/-- An error that wraps a parent is not that parent. -/
theorem Error.caos_ne_parent (k : ErrorKind) (e : Error) (i m : String) :
    Error.caos k e i m ≠ e := by
  intro h
  have hs := congrArg sizeOf h
  simp at hs
  omega

/-- C1: when the connector opens a pool whose `Ping` fails with `e`, `Connect`
returns no handle together with the precondition-failed error of id
`DATAB-0pIWD` and message `Errors.Database.Connection.Failed` that wraps `e`,
and that error is not `e` itself. -/
theorem Connect_ping_failure (config : Config) (connector : Connector) (useAdmin : Bool)
    (client : SqlDB) (e : Error)
    (hconnector : config.connector = some connector)
    (hopen : connector.Connect useAdmin = Except.ok client)
    (hping : client.Ping = some e) :
    ∃ err, Connect config useAdmin = Run.returned (none, some err) ∧
      err = ThrowPreconditionFailed e "DATAB-0pIWD" "Errors.Database.Connection.Failed" ∧
      err.IsPreconditionFailed = true ∧ err.parent = some e ∧
      err.id = some "DATAB-0pIWD" ∧ err.message = "Errors.Database.Connection.Failed" ∧
      err ≠ e := by
  refine ⟨ThrowPreconditionFailed e "DATAB-0pIWD" "Errors.Database.Connection.Failed",
    ?_, rfl, rfl, rfl, rfl, rfl, ?_⟩
  · simp [Connect, hconnector, hopen, hping]
  · exact Error.caos_ne_parent _ _ _ _

/-- C1 at a connector whose pool refuses the ping. -/
theorem Connect_ping_failure_witness :
    ∃ err,
      Connect { connector := some (fixedConnector (Except.ok
        (fixedPool (some connectionRefused) (Except.ok ⟨1⟩) none))) } true
        = Run.returned (none, some err) ∧
      err = ThrowPreconditionFailed connectionRefused "DATAB-0pIWD"
        "Errors.Database.Connection.Failed" ∧
      err.IsPreconditionFailed = true ∧ err.parent = some connectionRefused ∧
      err.id = some "DATAB-0pIWD" ∧ err.message = "Errors.Database.Connection.Failed" ∧
      err ≠ connectionRefused :=
  Connect_ping_failure _ _ true (fixedPool (some connectionRefused) (Except.ok ⟨1⟩) none)
    connectionRefused rfl rfl rfl

/-- C2, as stated, fails: when the connector cannot open the pool, `Connect`
returns the connector's error unchanged, and a driver error is not of the
precondition-failed class. -/
theorem Connect_open_failure_passthrough :
    Connect { connector := some (fixedConnector (Except.error connectionRefused)) } false
        = Run.returned (none, some connectionRefused) ∧
      connectionRefused.IsPreconditionFailed = false := by
  exact ⟨rfl, rfl⟩

/-- C2, amended: for a config with a connector, `Connect` returns, and what
it returns is fixed by the connector: when opening the pool fails with `err`,
no handle and `err` itself, unchanged; when the pool opens and the ping fails
with `e`, no handle and the precondition-failed error around `e`; when the
ping succeeds, a handle and no error. So whatever `Connect` returns is either
a handle and no error, or no handle and an error, and that error is the
connector's own error on an open failure and the precondition-failed error on
a ping failure. -/
theorem Connect_result_cases (config : Config) (useAdmin : Bool) :
    (∀ connector err, config.connector = some connector →
      connector.Connect useAdmin = Except.error err →
      Connect config useAdmin = Run.returned (none, some err)) ∧
    (∀ connector client e, config.connector = some connector →
      connector.Connect useAdmin = Except.ok client → client.Ping = some e →
      Connect config useAdmin = Run.returned (none,
        some (ThrowPreconditionFailed e "DATAB-0pIWD" "Errors.Database.Connection.Failed")) ∧
      (ThrowPreconditionFailed e "DATAB-0pIWD"
        "Errors.Database.Connection.Failed").IsPreconditionFailed = true) ∧
    (∀ connector client, config.connector = some connector →
      connector.Connect useAdmin = Except.ok client → client.Ping = none →
      Connect config useAdmin = Run.returned
        (some { sqlDB := client, Database := connector, queryCommitDelay := 10 * Millisecond },
          none)) ∧
    (∀ connector, config.connector = some connector →
      ∃ handle result, Connect config useAdmin = Run.returned (handle, result)) ∧
    (∀ handle result, Connect config useAdmin = Run.returned (handle, result) →
      (∃ db, handle = some db ∧ result = none) ∨
      (handle = none ∧ ∃ err connector, result = some err ∧ config.connector = some connector ∧
        (connector.Connect useAdmin = Except.error err ∨
          ∃ client e, connector.Connect useAdmin = Except.ok client ∧ client.Ping = some e ∧
            err = ThrowPreconditionFailed e "DATAB-0pIWD" "Errors.Database.Connection.Failed" ∧
            err.IsPreconditionFailed = true))) := by
  refine ⟨?_, ?_, ?_, ?_, ?_⟩
  · intro connector err hc ho
    simp [Connect, hc, ho]
  · intro connector client e hc ho hp
    exact ⟨by simp [Connect, hc, ho, hp], rfl⟩
  · intro connector client hc ho hp
    simp [Connect, hc, ho, hp]
  · intro connector hc
    cases ho : connector.Connect useAdmin with
    | error err => exact ⟨none, some err, by simp [Connect, hc, ho]⟩
    | ok client =>
      cases hp : client.Ping with
      | some e =>
        exact ⟨none,
          some (ThrowPreconditionFailed e "DATAB-0pIWD" "Errors.Database.Connection.Failed"),
          by simp [Connect, hc, ho, hp]⟩
      | none =>
        exact ⟨some ⟨client, connector, 10 * Millisecond⟩, none,
          by simp [Connect, hc, ho, hp]⟩
  · intro handle result hret
    unfold Connect at hret
    cases hc : config.connector with
    | none => simp [hc] at hret
    | some connector =>
      cases ho : connector.Connect useAdmin with
      | error err =>
        simp [hc, ho] at hret
        obtain ⟨h1, h2⟩ := hret
        exact Or.inr ⟨h1.symm, err, connector, h2.symm, rfl, Or.inl ho⟩
      | ok client =>
        cases hp : client.Ping with
        | some e =>
          simp [hc, ho, hp] at hret
          obtain ⟨h1, h2⟩ := hret
          exact Or.inr ⟨h1.symm, _, connector, h2.symm, rfl,
            Or.inr ⟨client, e, ho, hp, rfl, rfl⟩⟩
        | none =>
          simp [hc, ho, hp] at hret
          obtain ⟨h1, h2⟩ := hret
          exact Or.inl ⟨_, h1.symm, h2.symm⟩

/-- C2, amended, at a connector that cannot open the pool with admin
credentials: `Connect` hands back the driver error itself. -/
theorem Connect_result_cases_witness :
    Connect { connector := some (fixedConnector (Except.error (Error.plain "no route to host"))) }
      true = Run.returned (none, some (Error.plain "no route to host")) :=
  (Connect_result_cases
    { connector := some (fixedConnector (Except.error (Error.plain "no route to host"))) }
    true).1 _ _ rfl rfl

/-! ## The read path -/

/-- C3: when `BeginTx` succeeds with `tx`, `QueryContext` and
`QueryRowContext` issue the statement on `tx` and only then deal with the
commit: with a zero delay the calling goroutine commits before returning; with
a non-zero delay it commits nothing itself and starts one goroutine that sleeps
for `queryCommitDelay` and then commits. Either way exactly one `Commit`, of
`tx`, is issued and no `Rollback`. -/
theorem read_commit_policy (db : DB) (ctx : Context) (query : String) (args : List Value)
    (tx : Tx) (hbegin : db.sqlDB.BeginTx ctx readOnly = Except.ok tx) :
    (db.queryCommitDelay = 0 →
      (db.QueryContext ctx query args).trace =
        [Effect.call (Call.BeginTx ctx readOnly), Effect.call (Call.TxQuery tx query args),
          Effect.call (Call.TxCommit tx)] ∧
      (db.QueryRowContext ctx query args).trace =
        [Effect.call (Call.BeginTx ctx readOnly),
          Effect.call (Call.TxQueryRowContext tx ctx query args),
          Effect.call (Call.TxCommit tx)]) ∧
    (db.queryCommitDelay ≠ 0 →
      (db.QueryContext ctx query args).trace =
        [Effect.call (Call.BeginTx ctx readOnly), Effect.call (Call.TxQuery tx query args),
          Effect.go [Call.Sleep db.queryCommitDelay, Call.TxCommit tx]] ∧
      (db.QueryRowContext ctx query args).trace =
        [Effect.call (Call.BeginTx ctx readOnly),
          Effect.call (Call.TxQueryRowContext tx ctx query args),
          Effect.go [Call.Sleep db.queryCommitDelay, Call.TxCommit tx]] ∧
      (ownCalls (db.QueryContext ctx query args).trace).any Call.isCommit = false ∧
      (ownCalls (db.QueryRowContext ctx query args).trace).any Call.isCommit = false) ∧
    (allCalls (db.QueryContext ctx query args).trace).filter Call.isCommit
      = [Call.TxCommit tx] ∧
    (allCalls (db.QueryRowContext ctx query args).trace).filter Call.isCommit
      = [Call.TxCommit tx] ∧
    (allCalls (db.QueryContext ctx query args).trace).any Call.isRollback = false ∧
    (allCalls (db.QueryRowContext ctx query args).trace).any Call.isRollback = false := by
  have hbegin' : db.sqlDB.BeginTx ctx { ReadOnly := true } = Except.ok tx := hbegin
  by_cases hd : db.queryCommitDelay = 0
  · simp [DB.QueryContext, DB.QueryRowContext, DB.deferredCommit, hbegin', hd, readOnly,
      allCalls, ownCalls, spawnedCalls, Call.isCommit, Call.isRollback]
  · simp [DB.QueryContext, DB.QueryRowContext, DB.deferredCommit, hbegin', hd, readOnly,
      allCalls, ownCalls, spawnedCalls, Call.isCommit, Call.isRollback]

/-- C3 at a handle with the default delay of ten milliseconds. -/
theorem read_commit_policy_witness :
    ((fixedDB (Except.ok ⟨7⟩) none (10 * Millisecond)).QueryContext (Context.request 1)
        "SELECT 1" []).trace =
      [Effect.call (Call.BeginTx (Context.request 1) readOnly),
        Effect.call (Call.TxQuery ⟨7⟩ "SELECT 1" []),
        Effect.go [Call.Sleep 10000000, Call.TxCommit ⟨7⟩]] ∧
    ((fixedDB (Except.ok ⟨7⟩) none (10 * Millisecond)).QueryRowContext (Context.request 1)
        "SELECT 1" []).trace =
      [Effect.call (Call.BeginTx (Context.request 1) readOnly),
        Effect.call (Call.TxQueryRowContext ⟨7⟩ (Context.request 1) "SELECT 1" []),
        Effect.go [Call.Sleep 10000000, Call.TxCommit ⟨7⟩]] :=
  ⟨((read_commit_policy (fixedDB (Except.ok ⟨7⟩) none (10 * Millisecond)) (Context.request 1)
      "SELECT 1" [] ⟨7⟩ rfl).2.1 (by decide)).1,
    ((read_commit_policy (fixedDB (Except.ok ⟨7⟩) none (10 * Millisecond)) (Context.request 1)
      "SELECT 1" [] ⟨7⟩ rfl).2.1 (by decide)).2.1⟩

/-- C4, as stated, fails: when `BeginTx` fails, `QueryRow` executes the
statement directly on the pool, outside any transaction. -/
theorem QueryRow_falls_back_to_pool :
    ((fixedDB (Except.error connectionRefused) none 0).QueryRow "SELECT 1" []).trace =
      [Effect.call (Call.BeginTx Context.background readOnly),
        Effect.call (Call.DBQueryRowContext Context.background "SELECT 1" [])] ∧
    (allCalls ((fixedDB (Except.error connectionRefused) none 0).QueryRow
      "SELECT 1" []).trace).any Call.onPool = true := by
  decide

/-- C4, amended: `Query` and `QueryRow` are the context variants at the
background context; every call first opens one transaction with the
`ReadOnly` option set. `QueryContext` never executes the statement on the
pool: it executes it once, on the transaction it opened, and when `BeginTx`
fails it executes nothing and returns the error. `QueryRowContext` executes
the statement once on the transaction it opened when `BeginTx` succeeds, and
once directly on the pool when `BeginTx` fails. -/
theorem read_statement_placement (db : DB) (ctx : Context) (query : String)
    (args : List Value) :
    db.Query query args = db.QueryContext Context.background query args ∧
    db.QueryRow query args = db.QueryRowContext Context.background query args ∧
    (db.QueryContext ctx query args).trace.head?
      = some (Effect.call (Call.BeginTx ctx readOnly)) ∧
    (db.QueryRowContext ctx query args).trace.head?
      = some (Effect.call (Call.BeginTx ctx readOnly)) ∧
    (allCalls (db.QueryContext ctx query args).trace).filter Call.isBeginTx
      = [Call.BeginTx ctx readOnly] ∧
    (allCalls (db.QueryRowContext ctx query args).trace).filter Call.isBeginTx
      = [Call.BeginTx ctx readOnly] ∧
    (allCalls (db.QueryContext ctx query args).trace).any Call.onPool = false ∧
    (match db.sqlDB.BeginTx ctx readOnly with
      | Except.ok tx =>
        (allCalls (db.QueryContext ctx query args).trace).filter Call.isStatement
          = [Call.TxQuery tx query args] ∧
        (allCalls (db.QueryRowContext ctx query args).trace).filter Call.isStatement
          = [Call.TxQueryRowContext tx ctx query args] ∧
        (allCalls (db.QueryRowContext ctx query args).trace).any Call.onPool = false
      | Except.error err =>
        (allCalls (db.QueryContext ctx query args).trace).filter Call.isStatement = [] ∧
        (db.QueryContext ctx query args).ret = (none, some err) ∧
        (allCalls (db.QueryRowContext ctx query args).trace).filter Call.isStatement
          = [Call.DBQueryRowContext ctx query args] ∧
        (db.QueryRowContext ctx query args).ret = db.sqlDB.QueryRowContext ctx query args) := by
  refine ⟨rfl, rfl, ?_⟩
  cases hb : db.sqlDB.BeginTx ctx { ReadOnly := true } with
  | error err =>
    simp [DB.QueryContext, DB.QueryRowContext, hb, readOnly, allCalls, ownCalls,
      spawnedCalls, Call.isBeginTx, Call.isStatement, Call.onPool]
  | ok tx =>
    by_cases hd : db.queryCommitDelay = 0
    · simp [DB.QueryContext, DB.QueryRowContext, DB.deferredCommit, hb, hd, readOnly,
        allCalls, ownCalls, spawnedCalls, Call.isBeginTx, Call.isStatement, Call.onPool]
    · simp [DB.QueryContext, DB.QueryRowContext, DB.deferredCommit, hb, hd, readOnly,
        allCalls, ownCalls, spawnedCalls, Call.isBeginTx, Call.isStatement, Call.onPool]

/-- A cursor is closed by `Commit` in the same way whatever `Commit` answers. -/
theorem Rows.afterCommit_any_answer (a b : Option Error) (r : Rows) :
    r.afterCommit a = r.afterCommit b := by
  cases a <;> cases b <;> rfl

/-- The cursor of a row is closed by `Commit` in the same way whatever
`Commit` answers. -/
theorem Row.afterCommit_either_answer (a b : Option Error) (r : Row) :
    r.afterCommit a = r.afterCommit b := by
  obtain ⟨err, values⟩ := r
  cases err <;> cases a <;> cases b <;> rfl

/-- C5, as stated, fails at a zero delay: the value `QueryContext` returns is
not the result of the query on the transaction. The query answered an open
cursor with one row; the synchronous `Commit` ran before the return, so the
cursor the caller receives delivers no row and reports `context canceled`. -/
theorem QueryContext_zero_delay_cursor_closed :
    ((fixedDB (Except.ok ⟨3⟩) none 0).QueryContext Context.background "SELECT 1" []).ret
      = (some ⟨[], some contextCanceled⟩, none) ∧
    (fixedDB (Except.ok ⟨3⟩) none 0).sqlDB.TxQuery ⟨3⟩ "SELECT 1" []
      = (some ⟨[[Value.str "tx"]], none⟩, none) ∧
    ((fixedDB (Except.ok ⟨3⟩) none 0).QueryContext Context.background "SELECT 1" []).ret
      ≠ (fixedDB (Except.ok ⟨3⟩) none 0).sqlDB.TxQuery ⟨3⟩ "SELECT 1" [] := by
  decide

/-- C5, amended: with the handle, the query, the arguments, the answer of
`BeginTx` and the answer of the statement fixed, `QueryContext` and
`QueryRowContext` return the same value and make the same calls whatever
`Commit` answers, for every delay. With a non-zero delay the value returned is
the answer of the statement on the transaction, as the statement gave it.
With a zero delay it is that answer after `Commit` has run on its
transaction: an error of the statement is returned as it is, a cursor is
returned closed. -/
theorem commit_outcome_hidden (db : DB) (delay : Duration) (commit₁ commit₂ : Tx → Option Error)
    (ctx : Context) (query : String) (args : List Value) (tx : Tx)
    (hbegin : db.sqlDB.BeginTx ctx readOnly = Except.ok tx) :
    (((db.withCommit commit₁).SetQueryCommitDelay delay).QueryContext ctx query args).ret
      = (((db.withCommit commit₂).SetQueryCommitDelay delay).QueryContext ctx query args).ret ∧
    (((db.withCommit commit₁).SetQueryCommitDelay delay).QueryRowContext ctx query args).ret
      = (((db.withCommit commit₂).SetQueryCommitDelay delay).QueryRowContext ctx query args).ret ∧
    (((db.withCommit commit₁).SetQueryCommitDelay delay).QueryContext ctx query args).trace
      = (((db.withCommit commit₂).SetQueryCommitDelay delay).QueryContext ctx query args).trace ∧
    (((db.withCommit commit₁).SetQueryCommitDelay delay).QueryRowContext ctx query args).trace
      = (((db.withCommit commit₂).SetQueryCommitDelay delay).QueryRowContext ctx query
          args).trace ∧
    (delay ≠ 0 →
      (((db.withCommit commit₁).SetQueryCommitDelay delay).QueryContext ctx query args).ret
        = db.sqlDB.TxQuery tx query args ∧
      (((db.withCommit commit₁).SetQueryCommitDelay delay).QueryRowContext ctx query args).ret
        = db.sqlDB.TxQueryRowContext tx ctx query args) ∧
    (delay = 0 →
      (((db.withCommit commit₁).SetQueryCommitDelay delay).QueryContext ctx query args).ret
        = ((db.sqlDB.TxQuery tx query args).1.map (Rows.afterCommit (commit₁ tx)),
            (db.sqlDB.TxQuery tx query args).2) ∧
      (((db.withCommit commit₁).SetQueryCommitDelay delay).QueryRowContext ctx query args).ret
        = (db.sqlDB.TxQueryRowContext tx ctx query args).afterCommit (commit₁ tx)) := by
  have hbegin' : db.sqlDB.BeginTx ctx { ReadOnly := true } = Except.ok tx := hbegin
  have hrow := Row.afterCommit_either_answer (commit₁ tx) (commit₂ tx)
    (db.sqlDB.TxQueryRowContext tx ctx query args)
  have hquery :
      (((db.withCommit commit₁).SetQueryCommitDelay delay).QueryContext ctx query args).ret
        = (((db.withCommit commit₂).SetQueryCommitDelay delay).QueryContext ctx query
            args).ret := by
    rcases hq : db.sqlDB.TxQuery tx query args with ⟨_ | rows, qerr⟩
    · simp [DB.QueryContext, DB.withCommit, DB.SetQueryCommitDelay, hbegin', hq]
    · have hrows := Rows.afterCommit_any_answer (commit₁ tx) (commit₂ tx) rows
      by_cases hd : delay = 0
      · simp [DB.QueryContext, DB.deferredRows, DB.withCommit, DB.SetQueryCommitDelay, hbegin',
          hq, hd, hrows]
      · simp [DB.QueryContext, DB.deferredRows, DB.withCommit, DB.SetQueryCommitDelay, hbegin',
          hq, hd]
  refine ⟨hquery, ?_, ?_, ?_, ?_, ?_⟩
  · by_cases hd : delay = 0
    · simp [DB.QueryRowContext, DB.deferredRow, DB.withCommit, DB.SetQueryCommitDelay, hbegin',
        hd, hrow]
    · simp [DB.QueryRowContext, DB.deferredRow, DB.withCommit, DB.SetQueryCommitDelay, hbegin',
        hd]
  · simp [DB.QueryContext, DB.deferredCommit, DB.withCommit, DB.SetQueryCommitDelay, hbegin']
  · simp [DB.QueryRowContext, DB.deferredCommit, DB.withCommit, DB.SetQueryCommitDelay, hbegin']
  · intro hd
    constructor
    · rcases hq : db.sqlDB.TxQuery tx query args with ⟨_ | rows, qerr⟩
      · simp [DB.QueryContext, DB.withCommit, DB.SetQueryCommitDelay, hbegin', hq]
      · simp [DB.QueryContext, DB.deferredRows, DB.withCommit, DB.SetQueryCommitDelay, hbegin',
          hq, hd]
    · simp [DB.QueryRowContext, DB.deferredRow, DB.withCommit, DB.SetQueryCommitDelay, hbegin',
        hd]
  · intro hd
    constructor
    · rcases hq : db.sqlDB.TxQuery tx query args with ⟨_ | rows, qerr⟩
      · simp [DB.QueryContext, DB.withCommit, DB.SetQueryCommitDelay, hbegin', hq]
      · simp [DB.QueryContext, DB.deferredRows, DB.withCommit, DB.SetQueryCommitDelay, hbegin',
          hq, hd]
    · simp [DB.QueryRowContext, DB.deferredRow, DB.withCommit, DB.SetQueryCommitDelay, hbegin',
        hd]

/-- C5, amended, at a commit that succeeds and one that fails: with a zero
delay both runs return the closed cursor, with the default delay both return
the open row of the transaction. -/
theorem commit_outcome_hidden_witness :
    ((((fixedDB (Except.ok ⟨3⟩) none 0).withCommit (fun _ => none)).SetQueryCommitDelay
        0).QueryContext Context.background "SELECT 1" []).ret
      = ((((fixedDB (Except.ok ⟨3⟩) none 0).withCommit
          (fun _ => some connectionRefused)).SetQueryCommitDelay
        0).QueryContext Context.background "SELECT 1" []).ret ∧
    ((((fixedDB (Except.ok ⟨3⟩) none 0).withCommit (fun _ => none)).SetQueryCommitDelay
        (10 * Millisecond)).QueryRowContext Context.background "SELECT 1" []).ret
      = ((((fixedDB (Except.ok ⟨3⟩) none 0).withCommit
          (fun _ => some connectionRefused)).SetQueryCommitDelay
        (10 * Millisecond)).QueryRowContext Context.background "SELECT 1" []).ret ∧
    ((((fixedDB (Except.ok ⟨3⟩) none 0).withCommit (fun _ => none)).SetQueryCommitDelay
        (10 * Millisecond)).QueryRowContext Context.background "SELECT 1" []).ret
      = ⟨none, [Value.str "tx"]⟩ :=
  ⟨(commit_outcome_hidden (fixedDB (Except.ok ⟨3⟩) none 0) 0 (fun _ => none)
      (fun _ => some connectionRefused) Context.background "SELECT 1" [] ⟨3⟩ rfl).1,
    (commit_outcome_hidden (fixedDB (Except.ok ⟨3⟩) none 0) (10 * Millisecond) (fun _ => none)
      (fun _ => some connectionRefused) Context.background "SELECT 1" [] ⟨3⟩ rfl).2.1,
    ((commit_outcome_hidden (fixedDB (Except.ok ⟨3⟩) none 0) (10 * Millisecond) (fun _ => none)
      (fun _ => some connectionRefused) Context.background "SELECT 1" [] ⟨3⟩ rfl).2.2.2.2.1
      (by decide)).2⟩

/-! ## DecodeHook -/

/-- The loop of `DecodeHook` appends, in map order, the values of the keys the
matcher accepts. -/
theorem collectConfigs_eq (matcher : Matcher) (m : List (String × Value)) (configs : List Value) :
    collectConfigs matcher m configs
      = configs ++ (m.filter (fun entry => matcher.MatchName entry.1)).map Prod.snd := by
  induction m generalizing configs with
  | nil => simp [collectConfigs]
  | cons entry rest ih =>
    obtain ⟨name, dialectConfig⟩ := entry
    by_cases hm : matcher.MatchName name = true
    · simp [collectConfigs, hm, ih]
    · simp [collectConfigs, hm, ih]

/-- A selected dialect recognises a key of the map, so the map is not empty. -/
theorem SelectByConfig_some_length (registered : List Dialect) (m : List (String × Value))
    (d : Dialect) (hselect : SelectByConfig registered m = some d) : 0 < m.length := by
  have hp := List.find?_some hselect
  cases m with
  | nil => simp at hp
  | cons entry rest => simp

/-- C6: when dialect selection yields `d` for the map `m`, decoding `m` into
`Config` invokes `Decode` of `d` exactly once, on the values of exactly those
entries of `m` whose key `d` accepts; an error of `Decode` is returned with no
`Config`, and otherwise the `Config` returned has the result of `Decode` as
connector and an empty `Dialects` map. -/
theorem DecodeHook_decodes_selected (registered : List Dialect) (m : List (String × Value))
    (d : Dialect) (hselect : SelectByConfig registered m = some d) :
    (DecodeHook registered (Source.dialects m) TargetType.config).decodes
      = [⟨d, (m.filter (fun entry => d.Matcher.MatchName entry.1)).map Prod.snd⟩] ∧
    (∀ err,
      d.Matcher.Decode ((m.filter (fun entry => d.Matcher.MatchName entry.1)).map Prod.snd)
        = Except.error err →
      (DecodeHook registered (Source.dialects m) TargetType.config).result
        = Run.returned (none, some err)) ∧
    (∀ connector,
      d.Matcher.Decode ((m.filter (fun entry => d.Matcher.MatchName entry.1)).map Prod.snd)
        = Except.ok connector →
      (DecodeHook registered (Source.dialects m) TargetType.config).result
        = Run.returned
            (some (Decoded.config { Dialects := [], connector := some connector }), none)) := by
  have hlen := SelectByConfig_some_length registered m d hselect
  have hcap : ¬ ((m.length : Int) - 1 < 0) := by omega
  have hcollect := collectConfigs_eq d.Matcher m []
  simp only [List.nil_append] at hcollect
  refine ⟨?_, ?_, ?_⟩
  · simp only [DecodeHook, hselect, hcap, if_false, hcollect]
    cases d.Matcher.Decode ((m.filter (fun entry => d.Matcher.MatchName entry.1)).map Prod.snd)
      <;> rfl
  · intro err herr
    simp only [DecodeHook, hselect, hcap, if_false, hcollect, herr]
  · intro connector hok
    simp only [DecodeHook, hselect, hcap, if_false, hcollect, hok]

/-- C6 at a map with two postgres fragments and one foreign key. -/
theorem DecodeHook_decodes_selected_witness :
    (DecodeHook twoDialects (Source.dialects postgresConfig) TargetType.config).decodes
      = [⟨⟨postgresMatcher⟩, [Value.str "host=a", Value.str "host=b"]⟩] ∧
    (DecodeHook twoDialects (Source.dialects postgresConfig) TargetType.config).result
      = Run.returned
          (some (Decoded.config
            { Dialects := []
              connector := some (fixedConnector (Except.error connectionRefused)) }), none) :=
  ⟨(DecodeHook_decodes_selected twoDialects postgresConfig ⟨postgresMatcher⟩ rfl).1,
    (DecodeHook_decodes_selected twoDialects postgresConfig ⟨postgresMatcher⟩ rfl).2.2 _ rfl⟩

/-- C7 fails on the code: decoding the empty map into `Config` does not
return an error; the slice allocation with capacity `len(map)-1 = -1` panics. -/
theorem DecodeHook_empty_map_aborts (registered : List Dialect) :
    (DecodeHook registered (Source.dialects []) TargetType.config).result
      = Run.aborted Panic.makesliceCapOutOfRange ∧
    (DecodeHook registered (Source.dialects []) TargetType.config).decodes = [] := by
  simp [DecodeHook]

/-- No call of `DecodeHook` on a map that no registered dialect recognises
returns: it panics, without invoking `Decode`. -/
theorem DecodeHook_no_match_aborts (registered : List Dialect) (m : List (String × Value))
    (hnone : ∀ d ∈ registered, ∀ entry ∈ m, d.Matcher.MatchName entry.1 = false) :
    (∃ p, (DecodeHook registered (Source.dialects m) TargetType.config).result = Run.aborted p) ∧
    (DecodeHook registered (Source.dialects m) TargetType.config).decodes = [] := by
  have hsel : SelectByConfig registered m = none := by
    simp only [SelectByConfig, List.find?_eq_none]
    intro d hd
    simp only [List.any_eq_true, not_exists, not_and, Bool.not_eq_true]
    intro entry hentry
    exact hnone d hd entry hentry
  by_cases hcap : (m.length : Int) - 1 < 0
  · simp [DecodeHook, hcap]
  · simp [DecodeHook, hcap, hsel]

/-! ## The reducers -/

set_option maxRecDepth 16384

/-- C8: a reduce function of the projection, called with an event whose
concrete type is not one it expects, returns no statement and an error of the
invalid-argument class. -/
theorem reduce_wrong_event (r : Reducer) (e : Event) (hkind : e.kind ∉ r.expected) :
    ∃ err, r.reduce e = (none, some err) ∧ err.IsInvalidArgument = true := by
  refine ⟨ThrowInvalidArgument "" "", ?_, rfl⟩
  cases r <;> cases e <;>
    first
      | rfl
      | (exfalso; revert hkind; simp [Reducer.expected, Event.kind])

/-- C8 at the generic base event, for each of the six reduce functions. -/
theorem reduce_wrong_event_witness :
    (∃ err, reduceAdded (Event.base (testEvent "" "")) = (none, some err) ∧
      err.IsInvalidArgument = true) ∧
    (∃ err, reduceRemoved (Event.base (testEvent "" "")) = (none, some err) ∧
      err.IsInvalidArgument = true) ∧
    (∃ err, reduceCascadeRemoved (Event.base (testEvent "" "")) = (none, some err) ∧
      err.IsInvalidArgument = true) ∧
    (∃ err, reduceOwnerRemoved (Event.base (testEvent "" "")) = (none, some err) ∧
      err.IsInvalidArgument = true) ∧
    (∃ err, reduceUserRemoved (Event.base (testEvent "" "")) = (none, some err) ∧
      err.IsInvalidArgument = true) ∧
    (∃ err, reduceIDPConfigRemoved (Event.base (testEvent "" "")) = (none, some err) ∧
      err.IsInvalidArgument = true) :=
  ⟨reduce_wrong_event Reducer.reduceAdded (Event.base (testEvent "" "")) (by decide),
    reduce_wrong_event Reducer.reduceRemoved (Event.base (testEvent "" "")) (by decide),
    reduce_wrong_event Reducer.reduceCascadeRemoved (Event.base (testEvent "" "")) (by decide),
    reduce_wrong_event Reducer.reduceOwnerRemoved (Event.base (testEvent "" "")) (by decide),
    reduce_wrong_event Reducer.reduceUserRemoved (Event.base (testEvent "" "")) (by decide),
    reduce_wrong_event Reducer.reduceIDPConfigRemoved (Event.base (testEvent "" ""))
      (by decide)⟩

/-- C9: for a link-added event, `reduceAdded` returns a statement for
`projections.idp_user_links3` with the event's aggregate type, sequence and
previous sequence, whose single execution is an INSERT of the nine columns
idp_id, user_id, external_user_id, creation_date, change_date, sequence,
resource_owner, instance_id, display_name, with the payload's config id, the
aggregate id, the payload's user id, two timestamps, the sequence, the
resource owner, the instance id and the payload's display name. -/
theorem reduceAdded_insert (e : BaseEvent) (idpConfigID externalUserID displayName : String) :
    ∃ stmt created changed,
      reduceAdded (Event.UserIDPLinkAdded e idpConfigID externalUserID displayName)
        = (some stmt, none) ∧
      stmt.projection = "projections.idp_user_links3" ∧
      stmt.AggregateType = e.AggregateType ∧
      stmt.Sequence = e.Sequence ∧
      stmt.PreviousSequence = e.PreviousSequence ∧
      stmt.executions = [Operation.create
        [ ⟨"idp_id", Value.str idpConfigID⟩,
          ⟨"user_id", Value.str e.AggregateID⟩,
          ⟨"external_user_id", Value.str externalUserID⟩,
          ⟨"creation_date", created⟩,
          ⟨"change_date", changed⟩,
          ⟨"sequence", Value.uint e.Sequence⟩,
          ⟨"resource_owner", Value.str e.ResourceOwner⟩,
          ⟨"instance_id", Value.str e.InstanceID⟩,
          ⟨"display_name", Value.str displayName⟩ ]] ∧
      stmt.executions.map (Operation.render stmt.projection) =
        [("INSERT INTO projections.idp_user_links3 (idp_id, user_id, external_user_id, creation_date, change_date, sequence, resource_owner, instance_id, display_name) VALUES ($1, $2, $3, $4, $5, $6, $7, $8, $9)",
          [ Value.str idpConfigID, Value.str e.AggregateID, Value.str externalUserID,
            created, changed, Value.uint e.Sequence, Value.str e.ResourceOwner,
            Value.str e.InstanceID, Value.str displayName ])] := by
  refine ⟨_, Value.time e.CreationDate, Value.time e.CreationDate,
    rfl, rfl, rfl, rfl, rfl, rfl, ?_⟩
  simp only [newStatement, List.map, Operation.render, List.cons.injEq, Prod.mk.injEq, and_true,
    List.cons_append, List.nil_append]
  decide

/-- C9 at the event of the test. -/
theorem reduceAdded_insert_witness :
    ∃ stmt created changed,
      reduceAdded (Event.UserIDPLinkAdded
          (testEvent "user.UserIDPLinkAddedType" "user.AggregateType")
          "idp-config-id" "external-user-id" "gigi@caos.ch")
        = (some stmt, none) ∧
      stmt.projection = "projections.idp_user_links3" ∧
      stmt.AggregateType = "user.AggregateType" ∧
      stmt.Sequence = 15 ∧
      stmt.PreviousSequence = 10 ∧
      stmt.executions = [Operation.create
        [ ⟨"idp_id", Value.str "idp-config-id"⟩,
          ⟨"user_id", Value.str "agg-id"⟩,
          ⟨"external_user_id", Value.str "external-user-id"⟩,
          ⟨"creation_date", created⟩,
          ⟨"change_date", changed⟩,
          ⟨"sequence", Value.uint 15⟩,
          ⟨"resource_owner", Value.str "ro-id"⟩,
          ⟨"instance_id", Value.str "instance-id"⟩,
          ⟨"display_name", Value.str "gigi@caos.ch"⟩ ]] ∧
      stmt.executions.map (Operation.render stmt.projection) =
        [("INSERT INTO projections.idp_user_links3 (idp_id, user_id, external_user_id, creation_date, change_date, sequence, resource_owner, instance_id, display_name) VALUES ($1, $2, $3, $4, $5, $6, $7, $8, $9)",
          [ Value.str "idp-config-id", Value.str "agg-id", Value.str "external-user-id",
            created, changed, Value.uint 15, Value.str "ro-id",
            Value.str "instance-id", Value.str "gigi@caos.ch" ])] :=
  reduceAdded_insert (testEvent "user.UserIDPLinkAddedType" "user.AggregateType")
    "idp-config-id" "external-user-id" "gigi@caos.ch"

/-- C10: for an organisation-removed event, `reduceOwnerRemoved` returns a
statement for `projections.idp_user_links3` with the event's aggregate type,
sequence and previous sequence, whose single execution is an UPDATE, not a
DELETE: it sets only owner_removed to true where instance_id is the event's
instance id and resource_owner is the event's aggregate id, the arguments
being in that order. -/
theorem reduceOwnerRemoved_update (e : BaseEvent) :
    ∃ stmt,
      reduceOwnerRemoved (Event.OrgRemoved e) = (some stmt, none) ∧
      stmt.projection = "projections.idp_user_links3" ∧
      stmt.AggregateType = e.AggregateType ∧
      stmt.Sequence = e.Sequence ∧
      stmt.PreviousSequence = e.PreviousSequence ∧
      stmt.executions = [Operation.update
        [ ⟨"owner_removed", Value.bool true⟩ ]
        [ ⟨"instance_id", Value.str e.InstanceID⟩,
          ⟨"resource_owner", Value.str e.AggregateID⟩ ]] ∧
      stmt.executions.map (Operation.render stmt.projection) =
        [("UPDATE projections.idp_user_links3 SET owner_removed = $1 WHERE (instance_id = $2) AND (resource_owner = $3)",
          [ Value.bool true, Value.str e.InstanceID, Value.str e.AggregateID ])] := by
  refine ⟨_, rfl, rfl, rfl, rfl, rfl, rfl, ?_⟩
  simp only [newStatement, List.map, Operation.render, List.cons.injEq, Prod.mk.injEq, and_true,
    List.cons_append, List.nil_append]
  decide

/-- C10 at the event of the test. -/
theorem reduceOwnerRemoved_update_witness :
    ∃ stmt,
      reduceOwnerRemoved (Event.OrgRemoved
          (testEvent "org.OrgRemovedEventType" "org.AggregateType"))
        = (some stmt, none) ∧
      stmt.projection = "projections.idp_user_links3" ∧
      stmt.AggregateType = "org.AggregateType" ∧
      stmt.Sequence = 15 ∧
      stmt.PreviousSequence = 10 ∧
      stmt.executions = [Operation.update
        [ ⟨"owner_removed", Value.bool true⟩ ]
        [ ⟨"instance_id", Value.str "instance-id"⟩,
          ⟨"resource_owner", Value.str "agg-id"⟩ ]] ∧
      stmt.executions.map (Operation.render stmt.projection) =
        [("UPDATE projections.idp_user_links3 SET owner_removed = $1 WHERE (instance_id = $2) AND (resource_owner = $3)",
          [ Value.bool true, Value.str "instance-id", Value.str "agg-id" ])] :=
  reduceOwnerRemoved_update (testEvent "org.OrgRemovedEventType" "org.AggregateType")

end Zitadel
